import Mathlib

/-!
Shallow embedding of `SceneManager.cpp` (CS-330 final scene) and proofs about
its material registry, texture registry and transform pipeline.

Scalar shading values (colors, strengths, shininess) are modelled over `ℚ`,
texture handles and sentinel values over `ℤ`, and the 4×4 transform matrices
of `SetTransformations` over `ℝ` (they involve trigonometry).  Calls into
OpenGL and into the `ShaderManager` backend are modelled as event traces.
-/

set_option linter.unusedVariables false

namespace SceneMgr

/-- `OBJECT_MATERIAL` from `SceneManager.h`: a named bundle of shading
parameters.  Colors are RGB triples. -/
structure OBJECT_MATERIAL where
  ambientColor : ℚ × ℚ × ℚ
  ambientStrength : ℚ
  diffuseColor : ℚ × ℚ × ℚ
  specularColor : ℚ × ℚ × ℚ
  shininess : ℚ
  tag : String
deriving DecidableEq, Repr

/-- One call into the `ShaderManager` backend (uniform setters). -/
inductive ShaderCall where
  | setIntValue (name : String) (value : ℤ)
  | setFloatValue (name : String) (value : ℚ)
  | setVec2Value (name : String) (value : ℚ × ℚ)
  | setVec3Value (name : String) (value : ℚ × ℚ × ℚ)
  | setVec4Value (name : String) (value : ℚ × ℚ × ℚ × ℚ)
  | setSampler2DValue (name : String) (value : ℤ)
deriving DecidableEq, Repr

/-- The scan loop inside `SceneManager::FindMaterial` (lines 76-93): walk the
material list from index 0; on the first entry whose tag compares equal, copy
the five shading fields (but not the tag) into the out-parameter `material`
and stop; otherwise advance.  Returns the final value of the out-parameter. -/
def findMaterialScan : List OBJECT_MATERIAL → String → OBJECT_MATERIAL → OBJECT_MATERIAL
  | [], _, material => material
  | m :: rest, tag, material =>
    if m.tag = tag then
      { material with
        ambientColor := m.ambientColor
        ambientStrength := m.ambientStrength
        diffuseColor := m.diffuseColor
        specularColor := m.specularColor
        shininess := m.shininess }
    else findMaterialScan rest tag material

/-- `SceneManager::FindMaterial` (lines 69-96).  If `m_objectMaterials` is
empty it returns `false`; otherwise it runs the scan loop and then returns
`true` unconditionally (line 95 is `return(true)`, not `return(bFound)`).
The result pairs the returned `bool` with the out-parameter's final value. -/
def findMaterial (objectMaterials : List OBJECT_MATERIAL) (tag : String)
    (material : OBJECT_MATERIAL) : Bool × OBJECT_MATERIAL :=
  if objectMaterials.length = 0 then
    (false, material)
  else
    (true, findMaterialScan objectMaterials tag material)

/-- The `goldMaterial` local built in `SceneManager::DefineObjectMaterials`
(lines 457-463), tagged `"metal"`, the only material ever pushed. -/
def goldMaterial : OBJECT_MATERIAL :=
  { ambientColor := (0.2, 0.2, 0.2)
    ambientStrength := 5.0
    diffuseColor := (0.2, 0.2, 0.2)
    specularColor := (0.5, 0.5, 0.5)
    shininess := 12.0
    tag := "metal" }

/-- `SceneManager::DefineObjectMaterials` (lines 452-484) acting on the
`m_objectMaterials` vector.  It pushes `goldMaterial`, then builds a
`woodMaterial` local (tag `"wood"`) that is never pushed; the following
"plastic" block declares `plasticMaterial` but assigns every field to
`woodMaterial` instead (lines 476-481), and pushes nothing either.  The
shadowed locals are kept below to mirror the source. -/
def defineObjectMaterials (objectMaterials : List OBJECT_MATERIAL) :
    List OBJECT_MATERIAL :=
  let objectMaterials := objectMaterials ++ [goldMaterial]
  let woodMaterial : OBJECT_MATERIAL :=
    { ambientColor := (0.1, 0.1, 0.1)
      ambientStrength := 2.0
      diffuseColor := (0.3, 0.3, 0.3)
      specularColor := (0.1, 0.1, 0.1)
      shininess := 4.0
      tag := "wood" }
  let woodMaterial : OBJECT_MATERIAL :=
    { woodMaterial with
      ambientColor := (0.1, 0.1, 0.1)
      ambientStrength := 1.5
      diffuseColor := (0.3, 0.3, 0.3)
      specularColor := (0.1, 0.1, 0.1)
      shininess := 1.0
      tag := "plastic" }
  objectMaterials

/-- `SceneManager::SetShaderMaterial` (lines 424-444).  The local
`OBJECT_MATERIAL material` is uninitialized in the source; its indeterminate
contents are modelled by the explicit argument `uninit`.  When the registry is
non-empty and `FindMaterial` reports `true`, the five fields of the local are
pushed as uniforms. -/
def setShaderMaterial (objectMaterials : List OBJECT_MATERIAL)
    (materialTag : String) (uninit : OBJECT_MATERIAL) : List ShaderCall :=
  if objectMaterials.length > 0 then
    let r := findMaterial objectMaterials materialTag uninit
    if r.1 = true then
      [ShaderCall.setVec3Value "material.ambientColor" r.2.ambientColor,
       ShaderCall.setFloatValue "material.ambientStrength" r.2.ambientStrength,
       ShaderCall.setVec3Value "material.diffuseColor" r.2.diffuseColor,
       ShaderCall.setVec3Value "material.specularColor" r.2.specularColor,
       ShaderCall.setFloatValue "material.shininess" r.2.shininess]
    else []
  else []

/-- A stand-in concrete value for the uninitialized `OBJECT_MATERIAL` local
of `SetShaderMaterial`, used to instantiate counterexamples. -/
def uninitMaterial : OBJECT_MATERIAL :=
  { ambientColor := (0, 0, 0)
    ambientStrength := 0
    diffuseColor := (0, 0, 0)
    specularColor := (0, 0, 0)
    shininess := 0
    tag := "" }

/-- `TEXTURE_ID` from `SceneManager.h`: one slot of the `m_textureIDs` array.
The `ID` field is a `GLuint` in the source but is initialized to `-1` and
read back as `int`, so it is modelled over `ℤ`. -/
structure TEXTURE_ID where
  tag : String
  ID : ℤ
deriving DecidableEq, Repr

/-- The state a `SceneManager` instance keeps for its texture registry:
the `m_textureIDs` array and the `m_loadedTextures` counter.  The C array
has exactly `textureArrayCapacity = 16` entries; it is modelled as a total
map `ℕ → TEXTURE_ID` so that an out-of-bounds write index can be stated. -/
structure SMState where
  textureIDs : ℕ → TEXTURE_ID
  loadedTextures : ℕ

/-- The declared size of `m_textureIDs` (`SceneManager.h`) and the bound of
the constructor's initialization loop (line 40). -/
def textureArrayCapacity : ℕ := 16

/-- The texture-registry part of the `SceneManager` constructor
(lines 40-45): every slot gets tag `"/0"` and ID `-1`, and
`m_loadedTextures` is zeroed. -/
def initState : SMState :=
  { textureIDs := fun _ => { tag := "/0", ID := -1 }
    loadedTextures := 0 }

/-- The OpenGL base constant `GL_TEXTURE0`; texture unit `i` is selected by
`glActiveTexture(GL_TEXTURE0 + i)`. -/
def GL_TEXTURE0 : ℕ := 33984

/-- One call into OpenGL / stb_image / stdout, as issued by the texture
registry methods. -/
inductive GLCall where
  | genTextures
  | deleteTextures (id : ℤ)
  | bindTexture (id : ℤ)
  | texParameteri
  | texImage2D (channels : ℤ)
  | generateMipmap
  | imageFree
  | activeTexture (unit : ℕ)
  | logMessage (msg : String)
deriving DecidableEq, Repr

/-- The out-parameters filled in by a successful `stbi_load`. -/
structure ImageData where
  width : ℤ
  height : ℤ
  colorChannels : ℤ
deriving DecidableEq, Repr

/-- `SceneManager::CreateGLTexture` (lines 106-170).  The decode outcome of
`stbi_load` is passed in as `image` (`none` models a failed decode) and the
handle produced by `glGenTextures` as `textureID`.  Returns the `bool`
result, the updated registry state and the trace of external calls.
On the unsupported-channel-count branch (lines 145-149) the function returns
`false` without calling `stbi_image_free` and without touching the registry;
on success it writes slot `m_loadedTextures` unconditionally (lines 159-161)
and increments the counter. -/
def createGLTexture (s : SMState) (image : Option ImageData) (textureID : ℤ)
    (tag : String) : Bool × SMState × List GLCall :=
  match image with
  | some img =>
    let pre : List GLCall :=
      [GLCall.logMessage "Successfully loaded image", GLCall.genTextures,
       GLCall.bindTexture textureID, GLCall.texParameteri, GLCall.texParameteri,
       GLCall.texParameteri, GLCall.texParameteri]
    if img.colorChannels = 3 ∨ img.colorChannels = 4 then
      (true,
       { s with
         textureIDs := fun i =>
           if i = s.loadedTextures then { tag := tag, ID := textureID }
           else s.textureIDs i
         loadedTextures := s.loadedTextures + 1 },
       pre ++ [GLCall.texImage2D img.colorChannels, GLCall.generateMipmap,
               GLCall.imageFree, GLCall.bindTexture 0])
    else
      (false, s,
       pre ++ [GLCall.logMessage "Not implemented to handle image channels"])
  | none => (false, s, [GLCall.logMessage "Could not load image"])

/-- The loop body of `SceneManager::BindGLTextures` (lines 180-185), unrolled
from index `i` for `fuel` more iterations: activate unit `GL_TEXTURE0 + i`
and bind the slot's stored handle. -/
def bindLoop (s : SMState) : ℕ → ℕ → List GLCall
  | 0, _ => []
  | fuel + 1, i =>
    GLCall.activeTexture (GL_TEXTURE0 + i) ::
      GLCall.bindTexture (s.textureIDs i).ID :: bindLoop s fuel (i + 1)

/-- `SceneManager::BindGLTextures` (lines 178-186): for `i` from 0 below
`m_loadedTextures`, bind slot `i`'s texture to unit `i`. -/
def bindGLTextures (s : SMState) : List GLCall :=
  bindLoop s s.loadedTextures 0

/-- The loop of `SceneManager::DestroyGLTextures` (lines 196-199), one
iteration per loaded slot.  Each iteration calls
`glGenTextures(1, &m_textureIDs[i].ID)` — it generates a fresh texture name
into the slot; no `glDeleteTextures` call appears anywhere. -/
def destroyLoop : ℕ → List GLCall
  | 0 => []
  | n + 1 => GLCall.genTextures :: destroyLoop n

/-- `SceneManager::DestroyGLTextures` (lines 194-200): the trace of GL calls
it issues, `destroyLoop` once per loaded slot. -/
def destroyGLTextures (s : SMState) : List GLCall :=
  destroyLoop s.loadedTextures

/-- The shared scan loop of `SceneManager::FindTextureID` /
`FindTextureSlot` (lines 214-223 and 240-249) specialised to the ID result:
walk the first `m_loadedTextures` entries; the first tag match returns that
slot's stored `ID`; otherwise `-1` survives. -/
def findIDScan (tag : String) : List TEXTURE_ID → ℤ
  | [] => -1
  | e :: rest => if e.tag = tag then e.ID else findIDScan tag rest

/-- The scan loop of `SceneManager::FindTextureSlot`, carrying the running
`index`: the first tag match returns the current index; otherwise `-1`
survives. -/
def findSlotScan (tag : String) : List TEXTURE_ID → ℕ → ℤ
  | [], _ => -1
  | e :: rest, index =>
    if e.tag = tag then (index : ℤ) else findSlotScan tag rest (index + 1)

/-- The prefix of the `m_textureIDs` array actually scanned by the find
loops: slots `0` to `m_loadedTextures - 1`. -/
def loadedList (s : SMState) : List TEXTURE_ID :=
  (List.range s.loadedTextures).map s.textureIDs

/-- `SceneManager::FindTextureID` (lines 208-226). -/
def findTextureID (s : SMState) (tag : String) : ℤ :=
  findIDScan tag (loadedList s)

/-- `SceneManager::FindTextureSlot` (lines 234-252). -/
def findTextureSlot (s : SMState) (tag : String) : ℤ :=
  findSlotScan tag (loadedList s) 0

/-- `SceneManager::SetShaderTexture` (lines 325-336): when a shader manager
is attached, set `bUseTexture` to true (`1`) and pass `FindTextureSlot`'s
result directly as the `objectTexture` sampler value. -/
def setShaderTexture (s : SMState) (hasShader : Bool) (textureTag : String) :
    List ShaderCall :=
  if hasShader then
    [ShaderCall.setIntValue "bUseTexture" 1,
     ShaderCall.setSampler2DValue "objectTexture" (findTextureSlot s textureTag)]
  else []

/-- A sequence of successful texture loads: each pair is the handle produced
by `glGenTextures` and the tag, each decoding as a 3-channel image. -/
def loadAll (s : SMState) : List (ℤ × String) → SMState
  | [] => s
  | (id, tag) :: rest =>
    loadAll (createGLTexture s (some ⟨64, 64, 3⟩) id tag).2.1 rest

/-- `glm::radians`: degrees to radians. -/
noncomputable def glmRadians (degrees : ℝ) : ℝ :=
  degrees * (Real.pi / 180)

/-- `glm::normalize` on a 3-vector. -/
noncomputable def glmNormalize (v : ℝ × ℝ × ℝ) : ℝ × ℝ × ℝ :=
  let len := Real.sqrt (v.1 * v.1 + v.2.1 * v.2.1 + v.2.2 * v.2.2)
  (v.1 / len, v.2.1 / len, v.2.2 / len)

/-- `glm::rotate(angle, v)` from `glm/gtx/transform.hpp` applied to the
identity matrix: normalize the axis, then build the axis-angle (Rodrigues)
rotation.  glm stores matrices column-major (`Rotate[col][row]`); the entries
below are the same matrix in row-major mathematical convention. -/
noncomputable def glmRotate (angle : ℝ) (v : ℝ × ℝ × ℝ) :
    Matrix (Fin 4) (Fin 4) ℝ :=
  let c := Real.cos angle
  let s := Real.sin angle
  let axis := glmNormalize v
  let t0 := (1 - c) * axis.1
  let t1 := (1 - c) * axis.2.1
  let t2 := (1 - c) * axis.2.2
  !![c + t0 * axis.1, t1 * axis.1 - s * axis.2.2, t2 * axis.1 + s * axis.2.1, 0;
     t0 * axis.2.1 + s * axis.2.2, c + t1 * axis.2.1, t2 * axis.2.1 - s * axis.1, 0;
     t0 * axis.2.2 - s * axis.2.1, t1 * axis.2.2 + s * axis.1, c + t2 * axis.2.2, 0;
     0, 0, 0, 1]

/-- `glm::scale(v)`: diagonal scaling matrix. -/
noncomputable def glmScale (v : ℝ × ℝ × ℝ) : Matrix (Fin 4) (Fin 4) ℝ :=
  !![v.1, 0, 0, 0;
     0, v.2.1, 0, 0;
     0, 0, v.2.2, 0;
     0, 0, 0, 1]

/-- `glm::translate(v)`: identity with translation in the last column. -/
noncomputable def glmTranslate (v : ℝ × ℝ × ℝ) : Matrix (Fin 4) (Fin 4) ℝ :=
  !![1, 0, 0, v.1;
     0, 1, 0, v.2.1;
     0, 0, 1, v.2.2;
     0, 0, 0, 1]

/-- The textbook rotation about the fixed X axis, as the spec words it. -/
noncomputable def rotationXMatrix (θ : ℝ) : Matrix (Fin 4) (Fin 4) ℝ :=
  !![1, 0, 0, 0;
     0, Real.cos θ, -Real.sin θ, 0;
     0, Real.sin θ, Real.cos θ, 0;
     0, 0, 0, 1]

/-- The textbook rotation about the fixed Y axis. -/
noncomputable def rotationYMatrix (θ : ℝ) : Matrix (Fin 4) (Fin 4) ℝ :=
  !![Real.cos θ, 0, Real.sin θ, 0;
     0, 1, 0, 0;
     -Real.sin θ, 0, Real.cos θ, 0;
     0, 0, 0, 1]

/-- The textbook rotation about the fixed Z axis. -/
noncomputable def rotationZMatrix (θ : ℝ) : Matrix (Fin 4) (Fin 4) ℝ :=
  !![Real.cos θ, -Real.sin θ, 0, 0;
     Real.sin θ, Real.cos θ, 0, 0;
     0, 0, 1, 0;
     0, 0, 0, 1]

/-- `SceneManager::SetTransformations` (lines 260-290): build scale, the
three axis rotations (angles converted by `glm::radians`), and translation;
compose `translation * rotationX * rotationY * rotationZ * scale`; when a
shader manager is attached, push the product as the `"model"` mat4 uniform. -/
noncomputable def setTransformations (hasShader : Bool) (scaleXYZ : ℝ × ℝ × ℝ)
    (XrotationDegrees YrotationDegrees ZrotationDegrees : ℝ)
    (positionXYZ : ℝ × ℝ × ℝ) : List (String × Matrix (Fin 4) (Fin 4) ℝ) :=
  let scale := glmScale scaleXYZ
  let rotationX := glmRotate (glmRadians XrotationDegrees) (1, 0, 0)
  let rotationY := glmRotate (glmRadians YrotationDegrees) (0, 1, 0)
  let rotationZ := glmRotate (glmRadians ZrotationDegrees) (0, 0, 1)
  let translation := glmTranslate positionXYZ
  let modelView := translation * rotationX * rotationY * rotationZ * scale
  if hasShader then [("model", modelView)] else []

/-- Spec-side definition, following the spec's words for `bindAll()`: "binds
every currently loaded entry to a sequential hardware texture unit starting
at unit 0, in load order".  `specBindTrace L i` is the expected trace for the
loads `L` starting at unit `i`: unit `i` gets the first load's handle, unit
`i + 1` the next, and so on. -/
def specBindTrace : List (ℤ × String) → ℕ → List GLCall
  | [], _ => []
  | (id, tag) :: rest, i =>
    GLCall.activeTexture (GL_TEXTURE0 + i) :: GLCall.bindTexture id ::
      specBindTrace rest (i + 1)

lemma createGLTexture_success_state (s : SMState) (id : ℤ) (tag : String) :
    (createGLTexture s (some ⟨64, 64, 3⟩) id tag).2.1 =
      { textureIDs := fun i =>
          if i = s.loadedTextures then { tag := tag, ID := id }
          else s.textureIDs i
        loadedTextures := s.loadedTextures + 1 } := rfl

lemma loadAll_loadedTextures (L : List (ℤ × String)) :
    ∀ s : SMState, (loadAll s L).loadedTextures = s.loadedTextures + L.length := by
  induction L with
  | nil => intro s; simp [loadAll]
  | cons p rest ih =>
    intro s
    obtain ⟨id, tag⟩ := p
    rw [loadAll, ih, createGLTexture_success_state]
    simp
    omega

lemma loadAll_textureIDs_frozen (L : List (ℤ × String)) :
    ∀ (s : SMState) (i : ℕ), i < s.loadedTextures →
      (loadAll s L).textureIDs i = s.textureIDs i := by
  induction L with
  | nil => intro s i hi; rfl
  | cons p rest ih =>
    intro s i hi
    obtain ⟨id, tag⟩ := p
    rw [loadAll]
    rw [ih ((createGLTexture s (some ⟨64, 64, 3⟩) id tag).2.1) i
      (show i < s.loadedTextures + 1 by omega)]
    show (if i = s.loadedTextures then ({ tag := tag, ID := id } : TEXTURE_ID)
      else s.textureIDs i) = s.textureIDs i
    rw [if_neg (by omega : ¬ i = s.loadedTextures)]

lemma loadAll_textureIDs_get (L : List (ℤ × String)) :
    ∀ (s : SMState) (k : ℕ) (hk : k < L.length),
      (loadAll s L).textureIDs (s.loadedTextures + k) =
        { tag := (L.get ⟨k, hk⟩).2, ID := (L.get ⟨k, hk⟩).1 } := by
  induction L with
  | nil => intro s k hk; exact absurd hk (by simp)
  | cons p rest ih =>
    intro s k hk
    obtain ⟨id, tag⟩ := p
    rw [loadAll]
    match k with
    | 0 =>
      rw [loadAll_textureIDs_frozen rest
        ((createGLTexture s (some ⟨64, 64, 3⟩) id tag).2.1)
        (s.loadedTextures + 0)
        (show s.loadedTextures + 0 < s.loadedTextures + 1 by omega)]
      show (if s.loadedTextures + 0 = s.loadedTextures
          then ({ tag := tag, ID := id } : TEXTURE_ID)
          else s.textureIDs (s.loadedTextures + 0)) = _
      rw [if_pos (by omega : s.loadedTextures + 0 = s.loadedTextures)]
      simp [List.get]
    | Nat.succ k' =>
      have h1 : s.loadedTextures + (k' + 1) =
          (createGLTexture s (some ⟨64, 64, 3⟩) id tag).2.1.loadedTextures + k' :=
        show s.loadedTextures + (k' + 1) = s.loadedTextures + 1 + k' by omega
      rw [h1]
      rw [ih ((createGLTexture s (some ⟨64, 64, 3⟩) id tag).2.1) k'
        (by simpa using hk)]
      simp [List.get]

lemma loadedList_loadAll (L : List (ℤ × String)) :
    loadedList (loadAll initState L) =
      L.map (fun p => { tag := p.2, ID := p.1 }) := by
  apply List.ext_get
  · simp [loadedList, loadAll_loadedTextures, initState]
  · intro n h1 h2
    simp only [loadedList, List.get_eq_getElem, List.getElem_map,
      List.getElem_range]
    have hn : n < L.length := by simpa using h2
    have hidx := loadAll_textureIDs_get L initState n hn
    have h0 : initState.loadedTextures + n = n := by simp [initState]
    rw [h0] at hidx
    rw [hidx]
    simp

lemma bindLoop_eq_spec (L : List (ℤ × String)) :
    ∀ (s : SMState) (start : ℕ),
      (∀ (k : ℕ) (hk : k < L.length),
        s.textureIDs (start + k) =
          { tag := (L.get ⟨k, hk⟩).2, ID := (L.get ⟨k, hk⟩).1 }) →
      bindLoop s L.length start = specBindTrace L start := by
  induction L with
  | nil => intro s start h; rfl
  | cons p rest ih =>
    intro s start h
    obtain ⟨id, tag⟩ := p
    have h0 := h 0 (by simp)
    have hID : (s.textureIDs start).ID = id := by
      simp [List.get] at h0
      rw [h0]
    have htail : bindLoop s rest.length (start + 1) = specBindTrace rest (start + 1) := by
      apply ih
      intro k hk
      have hs := h (k + 1) (by simpa using Nat.succ_lt_succ hk)
      have harith : start + (k + 1) = start + 1 + k := by omega
      rw [harith] at hs
      rw [hs]
      simp [List.get]
    show GLCall.activeTexture (GL_TEXTURE0 + start) ::
        GLCall.bindTexture (s.textureIDs start).ID ::
        bindLoop s rest.length (start + 1) =
      GLCall.activeTexture (GL_TEXTURE0 + start) ::
        GLCall.bindTexture id :: specBindTrace rest (start + 1)
    rw [hID, htail]

lemma findSlotScan_first_match (tag : String) :
    ∀ (M : List TEXTURE_ID) (idx i : ℕ) (hi : i < M.length),
      (M.get ⟨i, hi⟩).tag = tag →
      (∀ (j : ℕ) (hj : j < M.length), j < i → (M.get ⟨j, hj⟩).tag ≠ tag) →
      findSlotScan tag M idx = ((idx + i : ℕ) : ℤ) := by
  intro M
  induction M with
  | nil => intro idx i hi; exact absurd hi (by simp)
  | cons e rest ih =>
    intro idx i hi hmatch hbefore
    match i with
    | 0 =>
      simp only [List.get] at hmatch
      rw [findSlotScan, if_pos hmatch]
      simp
    | Nat.succ i' =>
      have hne : e.tag ≠ tag := by
        have := hbefore 0 (by simp) (Nat.succ_pos i')
        simpa using this
      rw [findSlotScan, if_neg hne]
      have := ih (idx + 1) i' (by simpa using hi)
        (by simpa using hmatch)
        (by
          intro j hj hji
          have := hbefore (j + 1) (by simpa using Nat.succ_lt_succ hj)
            (Nat.succ_lt_succ hji)
          simpa using this)
      rw [this]
      congr 1
      omega

lemma findSlotScan_not_found (tag : String) :
    ∀ (M : List TEXTURE_ID) (idx : ℕ),
      (∀ e ∈ M, e.tag ≠ tag) → findSlotScan tag M idx = -1 := by
  intro M
  induction M with
  | nil => intro idx h; rfl
  | cons e rest ih =>
    intro idx h
    rw [findSlotScan, if_neg (h e (by simp))]
    exact ih (idx + 1) fun x hx => h x (by simp [hx])

lemma findIDScan_not_found (tag : String) :
    ∀ M : List TEXTURE_ID,
      (∀ e ∈ M, e.tag ≠ tag) → findIDScan tag M = -1 := by
  intro M
  induction M with
  | nil => intro h; rfl
  | cons e rest ih =>
    intro h
    rw [findIDScan, if_neg (h e (by simp))]
    exact ih fun x hx => h x (by simp [hx])

lemma glmNormalize_xAxis : glmNormalize (1, 0, 0) = ((1 : ℝ), (0 : ℝ), (0 : ℝ)) := by
  simp [glmNormalize]

lemma glmNormalize_yAxis : glmNormalize (0, 1, 0) = ((0 : ℝ), (1 : ℝ), (0 : ℝ)) := by
  simp [glmNormalize]

lemma glmNormalize_zAxis : glmNormalize (0, 0, 1) = ((0 : ℝ), (0 : ℝ), (1 : ℝ)) := by
  simp [glmNormalize]

lemma glmRotate_xAxis (θ : ℝ) : glmRotate θ (1, 0, 0) = rotationXMatrix θ := by
  unfold glmRotate rotationXMatrix
  rw [glmNormalize_xAxis]
  norm_num

lemma glmRotate_yAxis (θ : ℝ) : glmRotate θ (0, 1, 0) = rotationYMatrix θ := by
  unfold glmRotate rotationYMatrix
  rw [glmNormalize_yAxis]
  norm_num

lemma glmRotate_zAxis (θ : ℝ) : glmRotate θ (0, 0, 1) = rotationZMatrix θ := by
  unfold glmRotate rotationZMatrix
  rw [glmNormalize_zAxis]
  norm_num

/-- C1 (counterexample): after `DefineObjectMaterials` runs on an empty
registry, `FindMaterial("plastic")` does not fail — it returns `true` — and
`FindMaterial("wood")` does not return the wood values (the out-parameter
keeps its incoming `ambientStrength`, here `0`, not `2.0`), because neither a
`"wood"` nor a `"plastic"` entry was ever pushed. -/
theorem defineObjectMaterials_c1_counterexample :
    (findMaterial (defineObjectMaterials []) "plastic" uninitMaterial).1 = true ∧
    (findMaterial (defineObjectMaterials []) "wood" uninitMaterial).2.ambientStrength ≠ 2 := by
  decide

/-- C1 (amended): after `DefineObjectMaterials` runs on an empty registry the
registry holds exactly the one `"metal"` entry; `FindMaterial("wood")` finds
nothing and writes no fields (it cannot return the wood values
ambientStrength 2.0 / shininess 4.0, which were never committed), and
`FindMaterial("plastic")` likewise finds nothing — though both calls return
`true`, since `FindMaterial` returns `true` whenever the registry is
non-empty. -/
theorem defineObjectMaterials_amended (u : OBJECT_MATERIAL) :
    defineObjectMaterials [] = [goldMaterial] ∧
    findMaterial (defineObjectMaterials []) "wood" u = (true, u) ∧
    findMaterial (defineObjectMaterials []) "plastic" u = (true, u) :=
  ⟨rfl, rfl, rfl⟩

/-- C2 (code evaluated at the failing input): with the registry produced by
`DefineObjectMaterials` — whose only tag is `"metal"` — `FindMaterial` on the
unmatched tag `"wood"` returns `true` with the out-parameter untouched,
contradicting the claim that an unmatched tag reports not-found (`false`).
The unconditional `return(true)` at line 95 discards the scan's found flag. -/
theorem findMaterial_returns_true_on_miss :
    (defineObjectMaterials []).map OBJECT_MATERIAL.tag = ["metal"] ∧
    findMaterial (defineObjectMaterials []) "wood" uninitMaterial =
      (true, uninitMaterial) := by
  decide

/-- C3 (code evaluated at the failing input): with the non-empty registry
produced by `DefineObjectMaterials` and the unmatched tag `"wood"`,
`SetShaderMaterial` is not a silent no-op: because `FindMaterial` reports
`true`, it pushes all five material uniforms carrying the uninitialized
local's indeterminate values. -/
theorem setShaderMaterial_pushes_on_miss :
    setShaderMaterial (defineObjectMaterials []) "wood" uninitMaterial =
      [ShaderCall.setVec3Value "material.ambientColor" (0, 0, 0),
       ShaderCall.setFloatValue "material.ambientStrength" 0,
       ShaderCall.setVec3Value "material.diffuseColor" (0, 0, 0),
       ShaderCall.setVec3Value "material.specularColor" (0, 0, 0),
       ShaderCall.setFloatValue "material.shininess" 0] ∧
    setShaderMaterial (defineObjectMaterials []) "wood" uninitMaterial ≠ [] := by
  decide

/-- C4 (code evaluated at the failing input): `DestroyGLTextures` with zero
loaded entries does nothing, but with one loaded entry its trace is a single
`glGenTextures` call — it allocates a fresh texture name into the slot and
frees nothing; no `glDeleteTextures` call is ever issued. -/
theorem destroyGLTextures_gen_not_delete :
    destroyGLTextures initState = [] ∧
    destroyGLTextures (createGLTexture initState (some ⟨2, 2, 3⟩) 7 "wood").2.1 =
      [GLCall.genTextures] := by
  decide

/-- C5: for every scale vector, rotation triple (in degrees) and position
vector, `SetTransformations` pushes as the `"model"` uniform exactly
`Translation(position) * RotationX(radians rx) * RotationY(radians ry) *
RotationZ(radians rz) * Scale(scale)`, the rotation factors being the
textbook fixed-axis X, Y, Z rotation matrices in that composition order. -/
theorem setTransformations_model_matrix (scaleXYZ : ℝ × ℝ × ℝ)
    (XrotationDegrees YrotationDegrees ZrotationDegrees : ℝ)
    (positionXYZ : ℝ × ℝ × ℝ) :
    setTransformations true scaleXYZ XrotationDegrees YrotationDegrees
        ZrotationDegrees positionXYZ =
      [("model",
        glmTranslate positionXYZ *
          rotationXMatrix (glmRadians XrotationDegrees) *
          rotationYMatrix (glmRadians YrotationDegrees) *
          rotationZMatrix (glmRadians ZrotationDegrees) *
          glmScale scaleXYZ)] := by
  show [("model",
      glmTranslate positionXYZ *
        glmRotate (glmRadians XrotationDegrees) (1, 0, 0) *
        glmRotate (glmRadians YrotationDegrees) (0, 1, 0) *
        glmRotate (glmRadians ZrotationDegrees) (0, 0, 1) *
        glmScale scaleXYZ)] = _
  rw [glmRotate_xAxis, glmRotate_yAxis, glmRotate_zAxis]

/-- C6: when `CreateGLTexture` decodes an image whose channel count is
neither 3 nor 4, it returns `false`, leaves the registry state unchanged,
never calls `stbi_image_free` on this path (the decoded buffer leaks), and
logs the condition. -/
theorem createGLTexture_unsupported_channels (s : SMState) (img : ImageData)
    (textureID : ℤ) (tag : String)
    (h3 : img.colorChannels ≠ 3) (h4 : img.colorChannels ≠ 4) :
    (createGLTexture s (some img) textureID tag).1 = false ∧
    (createGLTexture s (some img) textureID tag).2.1 = s ∧
    GLCall.imageFree ∉ (createGLTexture s (some img) textureID tag).2.2 ∧
    GLCall.logMessage "Not implemented to handle image channels" ∈
      (createGLTexture s (some img) textureID tag).2.2 := by
  have hcond : ¬(img.colorChannels = 3 ∨ img.colorChannels = 4) := by
    rintro (h | h)
    · exact h3 h
    · exact h4 h
  refine ⟨?_, ?_, ?_, ?_⟩ <;> simp [createGLTexture, if_neg hcond]

/-- C6 witness: a concrete 2-channel image at a concrete state. -/
theorem createGLTexture_unsupported_channels_witness :
    (createGLTexture initState (some ⟨2, 2, 2⟩) 0 "x").1 = false ∧
    (createGLTexture initState (some ⟨2, 2, 2⟩) 0 "x").2.1 = initState ∧
    GLCall.imageFree ∉ (createGLTexture initState (some ⟨2, 2, 2⟩) 0 "x").2.2 ∧
    GLCall.logMessage "Not implemented to handle image channels" ∈
      (createGLTexture initState (some ⟨2, 2, 2⟩) 0 "x").2.2 :=
  createGLTexture_unsupported_channels initState ⟨2, 2, 2⟩ 0 "x"
    (by decide) (by decide)

/-- C7: `CreateGLTexture` performs no capacity check: every successful load
returns `true`, writes the new entry at index `m_loadedTextures`
unconditionally and increments the counter, whatever that index is; and when
`m_loadedTextures` already equals the 16-entry capacity, the write index is
not below the capacity — it is past the end of the array. -/
theorem createGLTexture_no_capacity_check (s : SMState) (img : ImageData)
    (textureID : ℤ) (tag : String)
    (hch : img.colorChannels = 3 ∨ img.colorChannels = 4) :
    ((createGLTexture s (some img) textureID tag).1 = true ∧
     (createGLTexture s (some img) textureID tag).2.1.textureIDs
        s.loadedTextures = { tag := tag, ID := textureID } ∧
     (createGLTexture s (some img) textureID tag).2.1.loadedTextures =
        s.loadedTextures + 1) ∧
    (s.loadedTextures = textureArrayCapacity →
      ¬ s.loadedTextures < textureArrayCapacity) := by
  constructor
  · refine ⟨?_, ?_, ?_⟩ <;> simp [createGLTexture, if_pos hch]
  · intro he
    rw [he]
    exact Nat.lt_irrefl _

/-- C7 witness: a 17th successful load, at a concrete state whose counter
already equals the 16-entry capacity. -/
theorem createGLTexture_no_capacity_check_witness :
    ((createGLTexture { initState with loadedTextures := 16 }
        (some ⟨8, 8, 4⟩) 5 "t").1 = true ∧
     (createGLTexture { initState with loadedTextures := 16 }
        (some ⟨8, 8, 4⟩) 5 "t").2.1.textureIDs
        ({ initState with loadedTextures := 16 } : SMState).loadedTextures =
          { tag := "t", ID := 5 } ∧
     (createGLTexture { initState with loadedTextures := 16 }
        (some ⟨8, 8, 4⟩) 5 "t").2.1.loadedTextures =
        ({ initState with loadedTextures := 16 } : SMState).loadedTextures + 1) ∧
    (({ initState with loadedTextures := 16 } : SMState).loadedTextures =
        textureArrayCapacity →
      ¬ ({ initState with loadedTextures := 16 } : SMState).loadedTextures <
          textureArrayCapacity) :=
  createGLTexture_no_capacity_check { initState with loadedTextures := 16 }
    ⟨8, 8, 4⟩ 5 "t" (Or.inr rfl)

/-- C8: after `n` successful `CreateGLTexture` calls (`n ≤ 16`) on a fresh
state, `BindGLTextures` produces exactly the spec's trace — the `i`-th loaded
handle bound to hardware unit `GL_TEXTURE0 + i`, sequentially from 0 in load
order — and `FindTextureSlot` on the `i`-th load's tag returns `i` whenever
no earlier load used the same tag (first match wins). -/
theorem bindGLTextures_sequential_units (L : List (ℤ × String))
    (hn : L.length ≤ 16) :
    bindGLTextures (loadAll initState L) = specBindTrace L 0 ∧
    ∀ (i : ℕ) (hi : i < L.length),
      (∀ (j : ℕ) (hj : j < L.length), j < i →
        (L.get ⟨j, hj⟩).2 ≠ (L.get ⟨i, hi⟩).2) →
      findTextureSlot (loadAll initState L) (L.get ⟨i, hi⟩).2 = (i : ℤ) := by
  constructor
  · rw [bindGLTextures]
    have hlen : (loadAll initState L).loadedTextures = L.length := by
      rw [loadAll_loadedTextures]
      simp [initState]
    rw [hlen]
    apply bindLoop_eq_spec
    intro k hk
    have hidx := loadAll_textureIDs_get L initState k hk
    have h0 : initState.loadedTextures + k = k := by simp [initState]
    rw [h0] at hidx
    rw [Nat.zero_add]
    exact hidx
  · intro i hi hfirst
    rw [findTextureSlot, loadedList_loadAll]
    have hmatch := findSlotScan_first_match (L.get ⟨i, hi⟩).2
      (L.map fun p => { tag := p.2, ID := p.1 }) 0 i (by simpa using hi)
      (by simp)
      (by
        intro j hj hji
        have hj' : j < L.length := by simpa using hj
        have := hfirst j hj' hji
        simpa using this)
    rw [hmatch]
    simp

/-- C8 witness: two concrete loads with distinct tags. -/
theorem bindGLTextures_sequential_units_witness :
    bindGLTextures (loadAll initState [(5, "a"), (7, "b")]) =
      specBindTrace [(5, "a"), (7, "b")] 0 ∧
    findTextureSlot (loadAll initState [(5, "a"), (7, "b")]) "b" = 1 := by
  refine ⟨(bindGLTextures_sequential_units [(5, "a"), (7, "b")] (by decide)).1, ?_⟩
  have := (bindGLTextures_sequential_units [(5, "a"), (7, "b")] (by decide)).2 1
    (by decide) (by decide)
  simpa using this

/-- C9: with the shader backend attached, `SetShaderTexture` always pushes
`bUseTexture := true` (`1`) and passes `FindTextureSlot`'s result straight
through as the `objectTexture` sampler value; in particular, when the tag is
not found the sentinel `-1` is pushed uncorrected, with no failure. -/
theorem setShaderTexture_sentinel_passthrough (s : SMState) (textureTag : String) :
    setShaderTexture s true textureTag =
      [ShaderCall.setIntValue "bUseTexture" 1,
       ShaderCall.setSampler2DValue "objectTexture" (findTextureSlot s textureTag)] ∧
    (findTextureSlot s textureTag = -1 →
      setShaderTexture s true textureTag =
        [ShaderCall.setIntValue "bUseTexture" 1,
         ShaderCall.setSampler2DValue "objectTexture" (-1)]) := by
  refine ⟨rfl, ?_⟩
  intro h
  rw [setShaderTexture]
  simp [h]

/-- C9 witness: the fresh state holds no texture tagged `"wood"`, and the
sentinel `-1` is pushed. -/
theorem setShaderTexture_sentinel_passthrough_witness :
    setShaderTexture initState true "wood" =
      [ShaderCall.setIntValue "bUseTexture" 1,
       ShaderCall.setSampler2DValue "objectTexture" (-1)] :=
  (setShaderTexture_sentinel_passthrough initState "wood").2 rfl

/-- C10: for every tag never registered by a successful `CreateGLTexture`
call, both `FindTextureSlot` and `FindTextureID` return the not-found value
`-1`. -/
theorem find_unregistered_tag_not_found (L : List (ℤ × String)) (tag : String)
    (h : tag ∉ L.map Prod.snd) :
    findTextureSlot (loadAll initState L) tag = -1 ∧
    findTextureID (loadAll initState L) tag = -1 := by
  have hall : ∀ e ∈ loadedList (loadAll initState L), e.tag ≠ tag := by
    rw [loadedList_loadAll]
    intro e he hcontra
    apply h
    rw [List.mem_map] at he
    obtain ⟨p, hp, hep⟩ := he
    rw [List.mem_map]
    refine ⟨p, hp, ?_⟩
    rw [← hcontra, ← hep]
  exact ⟨findSlotScan_not_found tag _ 0 hall, findIDScan_not_found tag _ hall⟩

/-- C10 witness: one concrete load tagged `"a"`; lookups of `"b"` miss. -/
theorem find_unregistered_tag_not_found_witness :
    findTextureSlot (loadAll initState [(5, "a")]) "b" = -1 ∧
    findTextureID (loadAll initState [(5, "a")]) "b" = -1 :=
  find_unregistered_tag_not_found [(5, "a")] "b" (by decide)

end SceneMgr
